import Mathlib

/-!
Verification of the StoreDuplicator migration engine (`src/migrator.js`).

The JavaScript source is shallowly embedded: every definition below is a
direct translation of a function or code block of `src/migrator.js`
(line numbers refer to that file).  Loosely typed JavaScript values are
modelled by small closed inductive types that record exactly the
distinctions the code observes (truthiness, presence of an `indexOf`
method, numeric value under `* 1` coercion).  Network calls issued to the
destination store are modelled as an explicit event trace.
-/

namespace StoreDuplicator

/-- A JavaScript value as stored in a metafield's `value` field.
`vNull` stands for `null`/`undefined`, `vStr` for a string and `vNum`
for a number.  These are the shapes the code at migrator.js:430
discriminates between (truthiness, having an `indexOf` method). -/
inductive JsVal where
  | vNull
  | vStr (s : String)
  | vNum (q : ℚ)
deriving DecidableEq

/-- JavaScript truthiness of a `JsVal`: `null` is falsy, a string is
truthy iff non-empty, a number is truthy iff non-zero. -/
def JsVal.truthy : JsVal → Bool
  | .vNull => false
  | .vStr s => !s.isEmpty
  | .vNum q => decide (q ≠ 0)

/-- Whether the value exposes an `indexOf` method (only strings do,
among the value shapes a metafield can carry). -/
def JsVal.hasIndexOf : JsVal → Bool
  | .vStr _ => true
  | _ => false

/-- `listHasInfix needle hay` decides whether `needle` occurs as a
contiguous run inside `hay`; it models JavaScript
`hay.indexOf(needle) !== -1`. -/
def listHasInfix (needle : List Char) : List Char → Bool
  | [] => needle.isEmpty
  | c :: t => needle.isPrefixOf (c :: t) || listHasInfix needle t

/-- Model of `value.indexOf('gid://shopify/') !== -1` (migrator.js:430):
only a string can contain the marker. -/
def JsVal.containsGid : JsVal → Bool
  | .vStr s => listHasInfix "gid://shopify/".toList s.toList
  | _ => false

/-- A metafield record as returned by `metafield.list` and sent to
`metafield.create`.  The JavaScript `namespace` field is called `ns`
here (`namespace` is a Lean keyword). -/
structure Metafield where
  mid : Option Nat
  ns : String
  key : String
  value : JsVal
  owner_resource : Option String
  owner_id : Option Nat
deriving DecidableEq

/-- `m.namespace.indexOf('app--') === 0`, i.e. the namespace starts with
the app-reserved marker (migrator.js:428,430,443 test its negation). -/
def nsIsApp (m : Metafield) : Bool :=
  "app--".toList.isPrefixOf m.ns.toList

/-- `_migratePage` (migrator.js:347-361): the page itself is forwarded
unchanged to `page.create`; every fetched metafield — with no namespace
filter — has its `id` cleared and its owner rebound to the new page, and
is sent to `metafield.create`.  This returns the list of metafield
creation payloads. -/
def pageMetafieldPayloads (newPageId : Nat) (ms : List Metafield) : List Metafield :=
  ms.map (fun m =>
    { m with mid := none, owner_resource := some "page", owner_id := some newPageId })

/-- `_migrateBlog` (migrator.js:363-377): every fetched metafield —
with no namespace filter — has its `id` cleared and its owner rebound
to the new blog, and is sent to `metafield.create`. -/
def blogMetafieldPayloads (newBlogId : Nat) (ms : List Metafield) : List Metafield :=
  ms.map (fun m =>
    { m with mid := none, owner_resource := some "blog", owner_id := some newBlogId })

/-- `_migrateArticle`'s metafield re-homing (migrator.js:480-487): no
namespace filter, owner rebound to the new article. -/
def articleMetafieldPayloads (newArticleId : Nat) (ms : List Metafield) : List Metafield :=
  ms.map (fun m =>
    { m with mid := none, owner_resource := some "article", owner_id := some newArticleId })

/-- `_migrateSmartCollection`'s metafield re-homing
(migrator.js:386-393): no namespace filter. -/
def smartCollectionMetafieldPayloads (newId : Nat) (ms : List Metafield) : List Metafield :=
  ms.map (fun m =>
    { m with mid := none, owner_resource := some "smart_collection", owner_id := some newId })

/-- `_migrateCustomCollection`'s metafield re-homing
(migrator.js:416-423): no namespace filter. -/
def customCollectionMetafieldPayloads (newId : Nat) (ms : List Metafield) : List Metafield :=
  ms.map (fun m =>
    { m with mid := none, owner_resource := some "custom_collection", owner_id := some newId })

/-- The shop-metafield creation payload of `migrateMetafields`
(migrator.js:584-587): only `owner_id` and `owner_resource` are
deleted before `metafield.create`; there is no namespace filter (and
the source `id` is left in place). -/
def shopMetafieldPayload (m : Metafield) : Metafield :=
  { m with owner_id := none, owner_resource := none }

/-- A JavaScript price value as observed by `_migrateProduct`
(migrator.js:434): either a JS number (truthy iff non-zero) or a
non-empty numeric string whose `* 1` coercion is `q` (always truthy). -/
inductive PriceV where
  | pnum (q : ℚ)
  | pstr (q : ℚ)
deriving DecidableEq

/-- Numeric value of the price under `* 1` coercion. -/
def PriceV.num : PriceV → ℚ
  | .pnum q => q
  | .pstr q => q

/-- JavaScript truthiness of the raw price value. -/
def PriceV.truthy : PriceV → Bool
  | .pnum q => decide (q ≠ 0)
  | .pstr _ => true

/-- A product variant; only the fields `_migrateProduct` touches are
modelled.  `none` stands for an absent/deleted field. -/
structure Variant where
  vid : Nat
  title : String
  price : PriceV
  compare_at_price : Option PriceV
  fulfillment_service : Option String
  inventory_management : Option String
  image_id : Option Nat
deriving DecidableEq

/-- The guard at migrator.js:434:
`variant.compare_at_price && (variant.compare_at_price * 1) <= (variant.price * 1)`. -/
def dropCompareAt (v : Variant) : Bool :=
  match v.compare_at_price with
  | none => false
  | some c => c.truthy && decide (c.num ≤ v.price.num)

/-- The per-variant mutation of `_migrateProduct` (migrator.js:433-441):
conditionally delete `compare_at_price`, delete `fulfillment_service`,
set `inventory_management` to `'shopify'`, delete `image_id`. -/
def migrateVariant (v : Variant) : Variant :=
  { v with
    compare_at_price := if dropCompareAt v then none else v.compare_at_price
    fulfillment_service := none
    inventory_management := some "shopify"
    image_id := none }

/-- The metafield value filter at migrator.js:430:
`v && v.value && v.value.indexOf && v.value.indexOf('gid://shopify/') === -1`
(the metafield object `v` itself is always truthy). -/
def keepProductMetafield (m : Metafield) : Bool :=
  m.value.truthy && m.value.hasIndexOf && !m.value.containsGid

/-- The metafields attached to the product creation payload
(migrator.js:428,430,442-444): namespace-filtered at fetch time, then
value-filtered and namespace-filtered again, then namespace-filtered a
third time just before `product.create`. -/
def productPayloadMetafields (ms : List Metafield) : List Metafield :=
  (((ms.filter (fun m => !nsIsApp m)).filter keepProductMetafield).filter
      (fun m => !nsIsApp m)).filter (fun m => !nsIsApp m)

/-- A source product (fields used by `_migrateProduct`). -/
structure Product where
  pid : Nat
  handle : String
  variants : List Variant
deriving DecidableEq

/-- The product creation payload sent to `product.create`
(migrator.js:445): `images` has been deleted, the variants mutated and
the filtered metafields attached. -/
structure ProductPayload where
  handle : String
  variants : List Variant
  metafields : List Metafield
deriving DecidableEq

/-- `_migrateProduct` up to the `product.create` call
(migrator.js:426-445). -/
def migrateProductPayload (p : Product) (ms : List Metafield) : ProductPayload :=
  { handle := p.handle
    variants := p.variants.map migrateVariant
    metafields := productPayloadMetafields ms }

/-- An article (fields used by `_migrateArticle`). -/
structure Article where
  aid : Nat
  handle : String
  user_id : Option Nat
  created_at : Option String
  deleted_at : Option String
  published_at : Option String
  blog_id : Option Nat
deriving DecidableEq

/-- `_migrateArticle`'s payload mutation (migrator.js:473-477), kept in
source order: first `user_id`, `created_at` and `deleted_at` are
deleted, then `published_at` is assigned from the — already deleted —
`created_at`, then `blog_id` is set. -/
def migrateArticlePayload (blogId : Nat) (a : Article) : Article :=
  let a1 : Article := { a with user_id := none, created_at := none, deleted_at := none }
  { a1 with published_at := a1.created_at, blog_id := some blogId }

/-- A call issued to the destination store while processing one source
record: deletion of an existing destination entity (by kind and id) or
creation of an entity of a given kind. -/
inductive Ev where
  | deleteCall (kind : String) (id : Nat)
  | createCall (kind : String)
deriving DecidableEq

/-- `isCreateOf k e` holds of creation calls of kind `k`. -/
def isCreateOf (k : String) : Ev → Bool
  | .createCall k2 => k2 == k
  | _ => false

/-- `isDeleteOf k e` holds of deletion calls of kind `k`. -/
def isDeleteOf (k : String) : Ev → Bool
  | .deleteCall k2 _ => k2 == k
  | _ => false

/-- Number of creation calls of kind `k` in a trace. -/
def countCreates (k : String) (evs : List Ev) : Nat :=
  evs.countP (isCreateOf k)

/-- Number of deletion calls of kind `k` in a trace. -/
def countDeletes (k : String) (evs : List Ev) : Nat :=
  evs.countP (isDeleteOf k)

/-- A JavaScript object used as a string-keyed map, modelled as its
insertion sequence; a later insertion of the same key shadows an earlier
one, exactly as assignment into a JS object does. -/
def jsObjSet {β : Type} (m : List (String × β)) (k : String) (v : β) : List (String × β) :=
  m ++ [(k, v)]

/-- Property lookup on the modelled JS object: the most recently
inserted binding of the key wins; `none` models `undefined`. -/
def jsObjGet {β : Type} (m : List (String × β)) (k : String) : Option β :=
  (m.reverse.find? (fun p => p.1 == k)).map (fun p => p.2)

/-- JavaScript truthiness of a looked-up numeric id: `undefined` and
`0` are falsy.  The guards `destinationPages[page.handle] && ...`
(migrator.js:507,511 and the analogous lines of every driver that
stores ids) test exactly this. -/
def truthyId (x : Option Nat) : Option Nat :=
  match x with
  | some d => if d = 0 then none else some d
  | none => none

/-- The shared per-record conflict logic of every driver
(e.g. migrator.js:507-515): if the looked-up destination entity is
truthy and `deleteFirst` holds, delete it; if it is truthy,
`skipExisting` holds and `deleteFirst` does not, issue nothing;
otherwise run the per-record migration, whose destination calls are
`migrateEvents`. -/
def conflictStep (kind : String) (found : Option Nat) (deleteFirst skipExisting : Bool)
    (migrateEvents : List Ev) : List Ev :=
  match found with
  | some did =>
    (if deleteFirst then [Ev.deleteCall kind did] else []) ++
      (if skipExisting && !deleteFirst then [] else migrateEvents)
  | none => migrateEvents

/-- Destination calls of `_migratePage` (migrator.js:347-361): one
`page.create`, then one `metafield.create` per fetched metafield. -/
def pageMigrateEvents (ms : List Metafield) : List Ev :=
  Ev.createCall "page" :: ms.map (fun _ => Ev.createCall "metafield")

/-- Per-record step of `migratePages` (migrator.js:504-516). -/
def migratePagesStep (idx : List (String × Nat)) (handle : String)
    (deleteFirst skipExisting : Bool) (ms : List Metafield) : List Ev :=
  conflictStep "page" (truthyId (jsObjGet idx handle)) deleteFirst skipExisting
    (pageMigrateEvents ms)

/-- Per-record step of `migrateBlogs` (migrator.js:714-726), with
`_migrateBlog`'s calls (migrator.js:363-377). -/
def migrateBlogsStep (idx : List (String × Nat)) (handle : String)
    (deleteFirst skipExisting : Bool) (ms : List Metafield) : List Ev :=
  conflictStep "blog" (truthyId (jsObjGet idx handle)) deleteFirst skipExisting
    (Ev.createCall "blog" :: ms.map (fun _ => Ev.createCall "metafield"))

/-- Destination calls of `_migrateProduct` on the success path
(migrator.js:445-466): one `product.create`, then one
`productImage.create` per retained source image. -/
def productMigrateEvents (imgs : List Nat) : List Ev :=
  Ev.createCall "product" :: imgs.map (fun _ => Ev.createCall "product_image")

/-- Per-record step of `migrateProducts` (migrator.js:536-551). -/
def migrateProductsStep (idx : List (String × Nat)) (handle : String)
    (deleteFirst skipExisting : Bool) (imgs : List Nat) : List Ev :=
  conflictStep "product" (truthyId (jsObjGet idx handle)) deleteFirst skipExisting
    (productMigrateEvents imgs)

/-- Per-record step of `migrateSmartCollections` (migrator.js:609-624),
with `_migrateSmartCollection`'s calls (migrator.js:379-394). -/
def migrateSmartCollectionsStep (idx : List (String × Nat)) (handle : String)
    (deleteFirst skipExisting : Bool) (ms : List Metafield) : List Ev :=
  conflictStep "smart_collection" (truthyId (jsObjGet idx handle)) deleteFirst skipExisting
    (Ev.createCall "smart_collection" :: ms.map (fun _ => Ev.createCall "metafield"))

/-- Per-record step of `migrateCustomCollections` (migrator.js:679-694),
with `_migrateCustomCollection`'s destination calls
(migrator.js:396-424). -/
def migrateCustomCollectionsStep (idx : List (String × Nat)) (handle : String)
    (deleteFirst skipExisting : Bool) (ms : List Metafield) : List Ev :=
  conflictStep "custom_collection" (truthyId (jsObjGet idx handle)) deleteFirst skipExisting
    (Ev.createCall "custom_collection" :: ms.map (fun _ => Ev.createCall "metafield"))

/-- Per-record step of the inner article loop of `migrateArticles`
(migrator.js:756-767), with `_migrateArticle`'s calls
(migrator.js:469-488). -/
def migrateArticlesStep (destArticles : List (String × Nat)) (handle : String)
    (deleteFirst skipExisting : Bool) (ms : List Metafield) : List Ev :=
  conflictStep "article" (truthyId (jsObjGet destArticles handle)) deleteFirst skipExisting
    (Ev.createCall "article" :: ms.map (fun _ => Ev.createCall "metafield"))

/-- A destination shop-level metafield as collected by
`migrateMetafields` (only the fields its `find` compares, plus the id
its delete call uses). -/
structure ShopMf where
  mid : Nat
  ns : String
  key : String
deriving DecidableEq

/-- Per-record step of `migrateMetafields` (migrator.js:573-591): the
destination record is found by `(namespace, key)` with `Array.find`;
a found record object is always truthy. -/
def migrateMetafieldsStep (destMfs : List ShopMf) (ns key : String)
    (deleteFirst skipExisting : Bool) : List Ev :=
  conflictStep "metafield"
    ((destMfs.find? (fun f => f.key == key && f.ns == ns)).map (fun f => f.mid))
    deleteFirst skipExisting [Ev.createCall "metafield"]

/-- Per-record step of `migrateMenus` (migrator.js:825-838).  The
destination map stores menu nodes — always truthy — abstracted here to
the id `_deleteMenu` receives; `_migrateMenu` issues one `menuCreate`
mutation. -/
def migrateMenusStep (idx : List (String × Nat)) (handle : String)
    (deleteFirst skipExisting : Bool) : List Ev :=
  conflictStep "menu" (jsObjGet idx handle) deleteFirst skipExisting [Ev.createCall "menu"]

/-- Per-record step of `migrateFiles` (migrator.js:243-264): a file
without a resolvable URL is skipped before any lookup; otherwise the
destination map stores file nodes — always truthy — abstracted to the
id `_deleteFile` receives; `_migrateFile` issues one `fileCreate`
mutation. -/
def migrateFilesStep (idx : List (String × Nat)) (fileUrl : Option String)
    (deleteFirst skipExisting : Bool) : List Ev :=
  match fileUrl with
  | none => []
  | some url =>
    conflictStep "file" (jsObjGet idx url) deleteFirst skipExisting [Ev.createCall "file"]

/-- Exhaustive walk of a paged listing: the `do { ... } while
(params !== undefined)` loops concatenate every page in order. -/
def listWalk {α : Type} (pages : List (List α)) : List α :=
  match pages with
  | [] => []
  | p :: rest => p ++ listWalk rest

/-- The nested index-building loop shared by the handle-indexed drivers
(e.g. migrator.js:494-500): for each page, for each record, assign
`obj[key] = id` into the accumulating JS object. -/
def nestedObjIndex {β : Type} (pages : List (List (String × β)))
    (init : List (String × β)) : List (String × β) :=
  pages.foldl (fun m pg => pg.foldl (fun m2 r => jsObjSet m2 r.1 r.2) m) init

/-- The collector loop of `migrateMetafields` and of the product
listings of `migrateCustomCollections` (e.g. migrator.js:561-565): for
each page, push every record onto an array. -/
def collectWalk {α : Type} (pages : List (List α)) : List α :=
  pages.foldl (fun acc pg => pg.foldl (fun a x => a ++ [x]) acc) []

/-- The destination index of `migrateCustomCollections`
(migrator.js:658-675): first every page of destination smart
collections, then every page of destination custom collections, into
the same JS object. -/
def migrateCustomCollectionsIndex (smartPages customPages : List (List (String × Nat))) :
    List (String × Nat) :=
  nestedObjIndex customPages (nestedObjIndex smartPages [])

/-- The destination file index of `migrateFiles` (migrator.js:148-198):
the cursor-style `while (hasNextPage)` loop walks every page; for each
file node the resolved URL (`GenericFile.url` or
`MediaImage.image.originalSrc`, `none` when neither resolves) keys the
node — abstracted to its id — into the JS object; URL-less files are
not inserted. -/
def migrateFilesDestIndex (pages : List (List (Option String × Nat))) :
    List (String × Nat) :=
  pages.foldl (fun m pg => pg.foldl (fun m2 r =>
    match r.1 with
    | some url => jsObjSet m2 url r.2
    | none => m2) m) []

/-- The destination menu index of `migrateMenus` (migrator.js:777-801):
a single `menus(first: 250)` query — only the first page of the
connection — whose edges are inserted by handle (nodes abstracted to
the id `_deleteMenu` receives). -/
def migrateMenusDestIndex (pages : List (List (String × Nat))) : List (String × Nat) :=
  (pages.headD []).foldl (fun m r => jsObjSet m r.1 r.2) []

/-- The source menus processed by `migrateMenus` (migrator.js:804-825):
likewise a single `menus(first: 250)` query, so only the first page. -/
def migrateMenusSourceMenus (pages : List (List (String × Nat))) : List (String × Nat) :=
  pages.headD []

/-- A blog record (fields used by `migrateArticles`). -/
structure Blog where
  bid : Nat
  handle : String
deriving DecidableEq

/-- The source-blog fetch of `migrateArticles` (migrator.js:734): a
single `blog.list` call, i.e. only the first page of the listing. -/
def migrateArticlesSourceBlogs (pages : List (List Blog)) : List Blog :=
  pages.headD []

/-- The destination-blog fetch of `migrateArticles` (migrator.js:735):
likewise only the first page. -/
def migrateArticlesDestBlogs (pages : List (List Blog)) : List Blog :=
  pages.headD []

/-- The blog matching of `migrateArticles` (migrator.js:736-738),
computed from the two first pages only. -/
def migrateArticlesMatching (srcPages dstPages : List (List Blog)) : List Blog :=
  (migrateArticlesSourceBlogs srcPages).filter
    (fun sb => (migrateArticlesDestBlogs dstPages).any (fun db => db.handle == sb.handle))

/-- A platform-reported validation failure carried in the `userErrors`
list of a successful GraphQL response envelope. -/
structure UserError where
  message : String
deriving DecidableEq

/-- `_migrateFile`'s handling of the `fileCreate` response
(migrator.js:302-308): a non-empty `userErrors` list makes it throw an
error built from the first message; otherwise it returns normally. -/
def fileCreateRun (fileId : String) (userErrors : List UserError) : Except String Unit :=
  match userErrors with
  | [] => Except.ok ()
  | e :: _ => Except.error ("[FILE " ++ fileId ++ "] Failed to create: " ++ e.message)

/-- `_migrateMenu`'s handling of the `menuCreate` response
(migrator.js:872-877). -/
def menuCreateRun (menuId : String) (userErrors : List UserError) : Except String Unit :=
  match userErrors with
  | [] => Except.ok ()
  | e :: _ => Except.error ("[MENU " ++ menuId ++ "] Failed to create: " ++ e.message)

/-- `_deleteFile`'s handling of the `fileDelete` response
(migrator.js:325-329): a non-empty `userErrors` list is only logged via
`this.error`; the function always returns normally.  The result carries
the logged error lines. -/
def fileDeleteRun (fileId : String) (userErrors : List UserError) :
    Except String (List String) :=
  match userErrors with
  | [] => Except.ok []
  | e :: _ => Except.ok ["Failed to delete file " ++ fileId ++ ": " ++ e.message]

/-- `_deleteMenu`'s handling of the `menuDelete` response
(migrator.js:895-898): logged only, never thrown. -/
def menuDeleteRun (menuId : String) (userErrors : List UserError) :
    Except String (List String) :=
  match userErrors with
  | [] => Except.ok []
  | e :: _ => Except.ok ["Failed to delete menu " ++ menuId ++ ": " ++ e.message]

/-! ### Concrete sample records used by the counterexamples and witnesses -/

/-- An app-reserved metafield as fetched for a source page. -/
def appMf : Metafield :=
  { mid := some 11, ns := "app--reviews", key := "stars", value := JsVal.vStr "5",
    owner_resource := some "page", owner_id := some 3 }

/-- A source article carrying both an original creation timestamp and a
distinct original publication timestamp. -/
def sampleArticle : Article :=
  { aid := 1, handle := "welcome", user_id := some 2,
    created_at := some "2020-01-05T00:00:00-05:00", deleted_at := none,
    published_at := some "2021-03-04T00:00:00-05:00", blog_id := none }

/-- A variant whose source record carries an explicit fulfillment
service and a stale image reference. -/
def sampleVariant : Variant :=
  { vid := 1, title := "A", price := PriceV.pnum 10, compare_at_price := none,
    fulfillment_service := some "acme", inventory_management := some "manual",
    image_id := some 77 }

/-- A variant whose `compare_at_price` is the JavaScript number `0`:
the field is carried by the record, and its numeric value is below the
price. -/
def zeroCompareVariant : Variant :=
  { vid := 2, title := "Z", price := PriceV.pnum 10,
    compare_at_price := some (PriceV.pnum 0), fulfillment_service := none,
    inventory_management := none, image_id := none }

/-- The spec example's variant A: price 10, compare-at price 8. -/
def specVariantA : Variant :=
  { vid := 3, title := "A", price := PriceV.pnum 10,
    compare_at_price := some (PriceV.pnum 8), fulfillment_service := none,
    inventory_management := none, image_id := none }

/-- The spec example's variant B: price 10, compare-at price 12. -/
def specVariantB : Variant :=
  { vid := 4, title := "B", price := PriceV.pnum 10,
    compare_at_price := some (PriceV.pnum 12), fulfillment_service := none,
    inventory_management := none, image_id := none }

/-- A product metafield whose value is the number 5 (no `indexOf`
method), in a non-app namespace. -/
def numMf : Metafield :=
  { mid := some 1, ns := "custom", key := "n", value := JsVal.vNum 5,
    owner_resource := some "product", owner_id := some 3 }

/-- A product metafield whose value is the empty string (falsy), in a
non-app namespace. -/
def emptyStrMf : Metafield :=
  { mid := some 2, ns := "custom", key := "e", value := JsVal.vStr "",
    owner_resource := some "product", owner_id := some 3 }

/-! ### Helper lemmas -/

theorem isPrefixOf_self (l : List Char) : l.isPrefixOf l = true := by
  induction l with
  | nil => rfl
  | cons c t ih => simp [List.isPrefixOf, ih]

theorem listHasInfix_append_self (p m : List Char) : listHasInfix m (p ++ m) = true := by
  induction p with
  | nil =>
    cases m with
    | nil => rfl
    | cons c t => simp [listHasInfix, isPrefixOf_self]
  | cons c t ih => simp [listHasInfix, ih]

theorem foldl_push_eq_append {α : Type} (l init : List α) :
    l.foldl (fun a x => a ++ [x]) init = init ++ l := by
  induction l generalizing init with
  | nil => simp
  | cons h t ih => simp [ih]

theorem foldl_jsObjSet_eq_append {β : Type} (pg m : List (String × β)) :
    pg.foldl (fun m2 r => jsObjSet m2 r.1 r.2) m = m ++ pg := by
  induction pg generalizing m with
  | nil => simp
  | cons h t ih =>
    rw [List.foldl_cons, ih]
    simp [jsObjSet]

theorem nestedObjIndex_eq_walk {β : Type} (pages : List (List (String × β)))
    (init : List (String × β)) : nestedObjIndex pages init = init ++ listWalk pages := by
  induction pages generalizing init with
  | nil => simp [nestedObjIndex, listWalk]
  | cons p rest ih =>
    show nestedObjIndex rest (p.foldl (fun m2 r => jsObjSet m2 r.1 r.2) init) = _
    rw [foldl_jsObjSet_eq_append, ih]
    simp [listWalk]

theorem collectWalk_eq_listWalk {α : Type} (pages : List (List α)) :
    collectWalk pages = listWalk pages := by
  have h : ∀ (ps : List (List α)) (init : List α),
      ps.foldl (fun acc pg => pg.foldl (fun a x => a ++ [x]) acc) init =
        init ++ listWalk ps := by
    intro ps
    induction ps with
    | nil => intro init; simp [listWalk]
    | cons p rest ih =>
      intro init
      rw [List.foldl_cons, foldl_push_eq_append, ih]
      simp [listWalk]
  simpa using h pages []

theorem foldl_listWalk {α β : Type} (f : β → α → β) (pages : List (List α)) (init : β) :
    pages.foldl (fun m pg => pg.foldl f m) init = (listWalk pages).foldl f init := by
  induction pages generalizing init with
  | nil => rfl
  | cons p rest ih =>
    rw [List.foldl_cons, ih, listWalk, List.foldl_append]

theorem jsObjGet_append_of_right_none {β : Type} (a b : List (String × β)) (k : String)
    (h : jsObjGet b k = none) : jsObjGet (a ++ b) k = jsObjGet a k := by
  have hb : b.reverse.find? (fun p => p.1 == k) = none := by
    unfold jsObjGet at h
    exact Option.map_eq_none'.mp h
  unfold jsObjGet
  rw [List.reverse_append, List.find?_append, hb]
  rfl

theorem conflictStep_skip (kind : String) (found : Option Nat) (did : Nat)
    (ev : List Ev) (h : found = some did) :
    conflictStep kind found false true ev = [] := by
  subst h
  rfl

theorem conflictStep_replace (kind : String) (found : Option Nat) (did : Nat) (se : Bool)
    (ev : List Ev) (h : found = some did) :
    conflictStep kind found true se ev = Ev.deleteCall kind did :: ev := by
  subst h
  cases se <;> rfl

theorem truthyId_some (did : Nat) (h : did ≠ 0) : truthyId (some did) = some did := by
  simp [truthyId, h]

theorem countCreates_map_const {α : Type} (k k2 : String) (l : List α)
    (h : (k2 == k) = false) :
    countCreates k (l.map fun _ => Ev.createCall k2) = 0 := by
  induction l with
  | nil => rfl
  | cons a t ih => simp [countCreates, List.countP_cons, isCreateOf, h] at ih ⊢

theorem countDeletes_map_create {α : Type} (k k2 : String) (l : List α) :
    countDeletes k (l.map fun _ => Ev.createCall k2) = 0 := by
  induction l with
  | nil => rfl
  | cons a t ih => simp [countDeletes, List.countP_cons, isDeleteOf] at ih ⊢

theorem countP_replicate {β : Type} (n : Nat) (b : β) (p : β → Bool) :
    (List.replicate n b).countP p = if p b then n else 0 := by
  induction n with
  | zero => simp
  | succ n ih => by_cases hb : p b <;> simp [List.replicate_succ, List.countP_cons, hb, ih]

theorem countP_map_const {α β : Type} (l : List α) (b : β) (p : β → Bool) :
    (l.map fun _ => b).countP p = if p b then l.length else 0 := by
  have h : (l.map fun _ => b) = List.replicate l.length b := by
    induction l with
    | nil => rfl
    | cons a t ih => simp [List.replicate_succ, ih]
  rw [h, countP_replicate]

/-! ### Claim theorems -/

/-- C1 counterexample: the claim says every entity kind's transform
excludes metafields whose namespace starts with `app--`, but
`_migratePage` applies no namespace filter: a metafield with namespace
`app--reviews` appears in the page transform's destination metafield
creation payloads. -/
theorem page_transform_copies_app_metafield :
    (pageMetafieldPayloads 9 [appMf]).any (fun m => nsIsApp m) = true := by decide

/-- C1 (amended): only the product transform excludes `app--`
metafields — every metafield in the product creation payload has a
non-`app--` namespace — while the page, blog, article,
smart-collection, custom-collection and shop-metafield transforms
forward every fetched metafield, preserving each namespace (`app--` or
not) unchanged in the creation payloads. -/
theorem app_metafields_excluded_in_product_transform_only :
    (∀ ms : List Metafield,
      ((productPayloadMetafields ms).all (fun m => !nsIsApp m)) = true) ∧
    (∀ (pid : Nat) (ms : List Metafield),
      (pageMetafieldPayloads pid ms).map (fun m => m.ns) = ms.map (fun m => m.ns)) ∧
    (∀ (bid : Nat) (ms : List Metafield),
      (blogMetafieldPayloads bid ms).map (fun m => m.ns) = ms.map (fun m => m.ns)) ∧
    (∀ (aid : Nat) (ms : List Metafield),
      (articleMetafieldPayloads aid ms).map (fun m => m.ns) = ms.map (fun m => m.ns)) ∧
    (∀ (cid : Nat) (ms : List Metafield),
      (smartCollectionMetafieldPayloads cid ms).map (fun m => m.ns) =
        ms.map (fun m => m.ns)) ∧
    (∀ (cid : Nat) (ms : List Metafield),
      (customCollectionMetafieldPayloads cid ms).map (fun m => m.ns) =
        ms.map (fun m => m.ns)) ∧
    (∀ m : Metafield, (shopMetafieldPayload m).ns = m.ns) := by
  refine ⟨?_, ?_, ?_, ?_, ?_, ?_, ?_⟩
  · intro ms
    rw [List.all_eq_true]
    intro m hm
    exact (List.mem_filter.mp hm).2
  · intro pid ms
    rw [pageMetafieldPayloads, List.map_map]
    rfl
  · intro bid ms
    rw [blogMetafieldPayloads, List.map_map]
    rfl
  · intro aid ms
    rw [articleMetafieldPayloads, List.map_map]
    rfl
  · intro cid ms
    rw [smartCollectionMetafieldPayloads, List.map_map]
    rfl
  · intro cid ms
    rw [customCollectionMetafieldPayloads, List.map_map]
    rfl
  · intro m
    rfl

/-- C4 (code bug): the claim — and the code's own assignment
`article.published_at = article.created_at` — intend the creation
payload's `published_at` to equal the source record's original
`created_at`, but `delete article.created_at` runs first
(migrator.js:474-476), so the payload's `published_at` is `undefined`
and differs from the original `created_at` of this concrete article. -/
theorem article_published_at_becomes_none :
    sampleArticle.created_at = some "2020-01-05T00:00:00-05:00" ∧
    (migrateArticlePayload 9 sampleArticle).published_at = none ∧
    (migrateArticlePayload 9 sampleArticle).published_at ≠ sampleArticle.created_at := by
  refine ⟨rfl, rfl, ?_⟩
  decide

/-- C5 counterexample: the claim says the payload has the variant's
`fulfillment_service` *set* to the platform's default in-house value,
but `_migrateProduct` deletes the field (migrator.js:438): on this
variant the payload's `fulfillment_service` is absent (`none`), not set
to any value. -/
theorem variant_fulfillment_service_removed_not_set :
    sampleVariant.fulfillment_service = some "acme" ∧
    (migrateVariant sampleVariant).fulfillment_service = none ∧
    (migrateVariant sampleVariant).image_id = none :=
  ⟨rfl, rfl, rfl⟩

/-- C5 (amended): for every variant of a migrated product, the creation
payload *removes* `fulfillment_service` (deferring to the platform
default), sets `inventory_management` to `'shopify'`, and removes
`image_id`. -/
theorem variant_payload_fields_normalized :
    ∀ (p : Product) (ms : List Metafield),
      ((migrateProductPayload p ms).variants).all
        (fun v => decide (v.fulfillment_service = none) && decide (v.image_id = none) &&
          decide (v.inventory_management = some "shopify")) = true := by
  intro p ms
  rw [List.all_eq_true]
  intro v hv
  simp only [migrateProductPayload, List.mem_map] at hv
  obtain ⟨w, _, rfl⟩ := hv
  simp [migrateVariant]

/-- C8 counterexample: the claim says `compare_at_price` is dropped
exactly when its numeric value is ≤ the price, but the guard at
migrator.js:434 first tests JavaScript truthiness: a carried
`compare_at_price` of `0` (falsy, and `0 ≤ 10`) is *retained* in the
payload. -/
theorem zero_compare_at_price_retained :
    zeroCompareVariant.compare_at_price = some (PriceV.pnum 0) ∧
    (PriceV.pnum 0).num ≤ zeroCompareVariant.price.num ∧
    (migrateVariant zeroCompareVariant).compare_at_price = some (PriceV.pnum 0) := by
  refine ⟨rfl, by norm_num [PriceV.num, zeroCompareVariant], ?_⟩
  decide

/-- C8 (amended): for every variant that carries a `compare_at_price`,
the creation payload drops it exactly when the carried value is truthy
(non-zero if a number) *and* its numeric value is ≤ the numeric value
of `price`; the spec's example behaves as claimed (variant A with
price 10 / compare 8 loses the field, variant B with compare 12 keeps
it — see the witness). -/
theorem compare_at_price_drop_iff_truthy_le :
    ∀ (v : Variant) (c : PriceV), v.compare_at_price = some c →
      ((migrateVariant v).compare_at_price = none ↔
        (c.truthy = true ∧ c.num ≤ v.price.num)) := by
  intro v c h
  have hd : dropCompareAt v = (c.truthy && decide (c.num ≤ v.price.num)) := by
    simp [dropCompareAt, h]
  simp only [migrateVariant, hd]
  cases hT : c.truthy
  · simp [h]
  · by_cases hle : c.num ≤ v.price.num
    · simp [hle]
    · simp [h, hle]

/-- Witness for the amended C8 theorem at the spec example's variant A,
together with the concrete example behaviour: A loses
`compare_at_price`, B keeps it. -/
theorem compare_at_price_drop_iff_truthy_le_witness :
    ((migrateVariant specVariantA).compare_at_price = none ↔
      ((PriceV.pnum 8).truthy = true ∧ (PriceV.pnum 8).num ≤ specVariantA.price.num)) ∧
    (migrateVariant specVariantA).compare_at_price = none ∧
    (migrateVariant specVariantB).compare_at_price = some (PriceV.pnum 12) :=
  ⟨compare_at_price_drop_iff_truthy_le specVariantA (PriceV.pnum 8) rfl,
   by decide, by decide⟩

/-- C9: every metafield in the product creation payload has a truthy
value exposing `indexOf`; hence a metafield whose value is a number or
falsy is excluded, even with a benign namespace and no global-id
content — shown concretely on a numeric-valued and an
empty-string-valued metafield. -/
theorem non_string_or_falsy_metafield_values_excluded :
    (∀ ms : List Metafield,
      ((productPayloadMetafields ms).all
        (fun m => m.value.truthy && m.value.hasIndexOf)) = true) ∧
    productPayloadMetafields [numMf, emptyStrMf] = [] := by
  constructor
  · intro ms
    rw [List.all_eq_true]
    intro m hm
    have h1 := (List.mem_filter.mp hm).1
    have h2 := (List.mem_filter.mp h1).1
    have h3 := (List.mem_filter.mp h2).2
    simp only [keepProductMetafield, Bool.and_eq_true] at h3
    simp [h3.1.1, h3.1.2]
  · decide

/-- C7: for each of the four GraphQL mutations, a non-empty
`userErrors` list makes a create operation (`fileCreate`, `menuCreate`)
throw an error whose text contains the first user error's message,
while a delete operation (`fileDelete`, `menuDelete`) returns normally
and only logs the failure. -/
theorem user_errors_create_throws_delete_logs :
    ∀ (fid mId : String) (e : UserError) (rest : List UserError),
      fileCreateRun fid (e :: rest) =
        Except.error ("[FILE " ++ fid ++ "] Failed to create: " ++ e.message) ∧
      listHasInfix e.message.toList
        ("[FILE " ++ fid ++ "] Failed to create: " ++ e.message).toList = true ∧
      menuCreateRun mId (e :: rest) =
        Except.error ("[MENU " ++ mId ++ "] Failed to create: " ++ e.message) ∧
      listHasInfix e.message.toList
        ("[MENU " ++ mId ++ "] Failed to create: " ++ e.message).toList = true ∧
      fileDeleteRun fid (e :: rest) =
        Except.ok ["Failed to delete file " ++ fid ++ ": " ++ e.message] ∧
      menuDeleteRun mId (e :: rest) =
        Except.ok ["Failed to delete menu " ++ mId ++ ": " ++ e.message] := by
  intro fid mId e rest
  refine ⟨rfl, ?_, rfl, ?_, rfl, rfl⟩
  · have h : ("[FILE " ++ fid ++ "] Failed to create: " ++ e.message).toList =
        ("[FILE " ++ fid ++ "] Failed to create: ").toList ++ e.message.toList := by
      simp
    rw [h]
    exact listHasInfix_append_self _ _
  · have h : ("[MENU " ++ mId ++ "] Failed to create: " ++ e.message).toList =
        ("[MENU " ++ mId ++ "] Failed to create: ").toList ++ e.message.toList := by
      simp
    rw [h]
    exact listHasInfix_append_self _ _

/-- C2: for every entity type's driver, a source record whose natural
key is present in the destination index, under `skipExisting = true`
and `deleteFirst = false`, produces an empty destination call trace: no
create call, no delete call, the matched destination record untouched.
(For the drivers that index numeric ids, the matched id is non-zero, as
every platform-assigned id is.) -/
theorem skip_existing_issues_no_calls :
    (∀ (idx : List (String × Nat)) (h : String) (ms : List Metafield) (did : Nat),
      jsObjGet idx h = some did → did ≠ 0 →
      migratePagesStep idx h false true ms = []) ∧
    (∀ (idx : List (String × Nat)) (h : String) (ms : List Metafield) (did : Nat),
      jsObjGet idx h = some did → did ≠ 0 →
      migrateBlogsStep idx h false true ms = []) ∧
    (∀ (idx : List (String × Nat)) (h : String) (imgs : List Nat) (did : Nat),
      jsObjGet idx h = some did → did ≠ 0 →
      migrateProductsStep idx h false true imgs = []) ∧
    (∀ (idx : List (String × Nat)) (h : String) (ms : List Metafield) (did : Nat),
      jsObjGet idx h = some did → did ≠ 0 →
      migrateSmartCollectionsStep idx h false true ms = []) ∧
    (∀ (idx : List (String × Nat)) (h : String) (ms : List Metafield) (did : Nat),
      jsObjGet idx h = some did → did ≠ 0 →
      migrateCustomCollectionsStep idx h false true ms = []) ∧
    (∀ (idx : List (String × Nat)) (h : String) (ms : List Metafield) (did : Nat),
      jsObjGet idx h = some did → did ≠ 0 →
      migrateArticlesStep idx h false true ms = []) ∧
    (∀ (destMfs : List ShopMf) (ns key : String) (dm : ShopMf),
      destMfs.find? (fun f => f.key == key && f.ns == ns) = some dm →
      migrateMetafieldsStep destMfs ns key false true = []) ∧
    (∀ (idx : List (String × Nat)) (h : String) (mId : Nat),
      jsObjGet idx h = some mId →
      migrateMenusStep idx h false true = []) ∧
    (∀ (idx : List (String × Nat)) (url : String) (fId : Nat),
      jsObjGet idx url = some fId →
      migrateFilesStep idx (some url) false true = []) := by
  refine ⟨?_, ?_, ?_, ?_, ?_, ?_, ?_, ?_, ?_⟩
  · intro idx h ms did hf hd
    unfold migratePagesStep
    rw [hf]
    exact conflictStep_skip _ _ did _ (truthyId_some did hd)
  · intro idx h ms did hf hd
    unfold migrateBlogsStep
    rw [hf]
    exact conflictStep_skip _ _ did _ (truthyId_some did hd)
  · intro idx h imgs did hf hd
    unfold migrateProductsStep
    rw [hf]
    exact conflictStep_skip _ _ did _ (truthyId_some did hd)
  · intro idx h ms did hf hd
    unfold migrateSmartCollectionsStep
    rw [hf]
    exact conflictStep_skip _ _ did _ (truthyId_some did hd)
  · intro idx h ms did hf hd
    unfold migrateCustomCollectionsStep
    rw [hf]
    exact conflictStep_skip _ _ did _ (truthyId_some did hd)
  · intro idx h ms did hf hd
    unfold migrateArticlesStep
    rw [hf]
    exact conflictStep_skip _ _ did _ (truthyId_some did hd)
  · intro destMfs ns key dm hf
    unfold migrateMetafieldsStep
    rw [hf]
    exact conflictStep_skip _ _ dm.mid _ rfl
  · intro idx h mId hf
    unfold migrateMenusStep
    rw [hf]
    exact conflictStep_skip _ _ mId _ rfl
  · intro idx url fId hf
    show conflictStep "file" (jsObjGet idx url) false true [Ev.createCall "file"] = []
    rw [hf]
    exact conflictStep_skip _ _ fId _ rfl

/-- Witness for the C2 theorem: each driver's step, at a concrete
one-entry destination index whose key matches the source record,
issues no calls under the skip-existing policy. -/
theorem skip_existing_issues_no_calls_witness :
    migratePagesStep [("p", 5)] "p" false true [] = [] ∧
    migrateBlogsStep [("b", 5)] "b" false true [] = [] ∧
    migrateProductsStep [("pr", 5)] "pr" false true [] = [] ∧
    migrateSmartCollectionsStep [("sc", 5)] "sc" false true [] = [] ∧
    migrateCustomCollectionsStep [("cc", 5)] "cc" false true [] = [] ∧
    migrateArticlesStep [("a", 5)] "a" false true [] = [] ∧
    migrateMetafieldsStep [ShopMf.mk 7 "global" "k"] "global" "k" false true = [] ∧
    migrateMenusStep [("m", 7)] "m" false true = [] ∧
    migrateFilesStep [("u", 7)] (some "u") false true = [] :=
  ⟨skip_existing_issues_no_calls.1 [("p", 5)] "p" [] 5 (by decide) (by decide),
   skip_existing_issues_no_calls.2.1 [("b", 5)] "b" [] 5 (by decide) (by decide),
   skip_existing_issues_no_calls.2.2.1 [("pr", 5)] "pr" [] 5 (by decide) (by decide),
   skip_existing_issues_no_calls.2.2.2.1 [("sc", 5)] "sc" [] 5 (by decide) (by decide),
   skip_existing_issues_no_calls.2.2.2.2.1 [("cc", 5)] "cc" [] 5 (by decide) (by decide),
   skip_existing_issues_no_calls.2.2.2.2.2.1 [("a", 5)] "a" [] 5 (by decide) (by decide),
   skip_existing_issues_no_calls.2.2.2.2.2.2.1 [ShopMf.mk 7 "global" "k"] "global" "k"
     (ShopMf.mk 7 "global" "k") (by decide),
   skip_existing_issues_no_calls.2.2.2.2.2.2.2.1 [("m", 7)] "m" 7 (by decide),
   skip_existing_issues_no_calls.2.2.2.2.2.2.2.2 [("u", 7)] "u" 7 (by decide)⟩

/-- C3: for every entity type's driver, a source record whose natural
key is present in the destination index, under `deleteFirst = true`,
yields a trace that starts with exactly one delete call targeting the
matched destination id, followed by the per-record migration calls
containing exactly one create call of the entity's kind: the delete
precedes the create. -/
theorem delete_first_deletes_then_creates :
    (∀ (idx : List (String × Nat)) (h : String) (ms : List Metafield) (did : Nat) (se : Bool),
      jsObjGet idx h = some did → did ≠ 0 →
      migratePagesStep idx h true se ms =
        Ev.deleteCall "page" did :: pageMigrateEvents ms ∧
      countDeletes "page" (migratePagesStep idx h true se ms) = 1 ∧
      countCreates "page" (migratePagesStep idx h true se ms) = 1) ∧
    (∀ (idx : List (String × Nat)) (h : String) (ms : List Metafield) (did : Nat) (se : Bool),
      jsObjGet idx h = some did → did ≠ 0 →
      migrateBlogsStep idx h true se ms =
        Ev.deleteCall "blog" did :: Ev.createCall "blog" ::
          ms.map (fun _ => Ev.createCall "metafield") ∧
      countDeletes "blog" (migrateBlogsStep idx h true se ms) = 1 ∧
      countCreates "blog" (migrateBlogsStep idx h true se ms) = 1) ∧
    (∀ (idx : List (String × Nat)) (h : String) (imgs : List Nat) (did : Nat) (se : Bool),
      jsObjGet idx h = some did → did ≠ 0 →
      migrateProductsStep idx h true se imgs =
        Ev.deleteCall "product" did :: productMigrateEvents imgs ∧
      countDeletes "product" (migrateProductsStep idx h true se imgs) = 1 ∧
      countCreates "product" (migrateProductsStep idx h true se imgs) = 1) ∧
    (∀ (idx : List (String × Nat)) (h : String) (ms : List Metafield) (did : Nat) (se : Bool),
      jsObjGet idx h = some did → did ≠ 0 →
      migrateSmartCollectionsStep idx h true se ms =
        Ev.deleteCall "smart_collection" did :: Ev.createCall "smart_collection" ::
          ms.map (fun _ => Ev.createCall "metafield") ∧
      countDeletes "smart_collection" (migrateSmartCollectionsStep idx h true se ms) = 1 ∧
      countCreates "smart_collection" (migrateSmartCollectionsStep idx h true se ms) = 1) ∧
    (∀ (idx : List (String × Nat)) (h : String) (ms : List Metafield) (did : Nat) (se : Bool),
      jsObjGet idx h = some did → did ≠ 0 →
      migrateCustomCollectionsStep idx h true se ms =
        Ev.deleteCall "custom_collection" did :: Ev.createCall "custom_collection" ::
          ms.map (fun _ => Ev.createCall "metafield") ∧
      countDeletes "custom_collection" (migrateCustomCollectionsStep idx h true se ms) = 1 ∧
      countCreates "custom_collection" (migrateCustomCollectionsStep idx h true se ms) = 1) ∧
    (∀ (idx : List (String × Nat)) (h : String) (ms : List Metafield) (did : Nat) (se : Bool),
      jsObjGet idx h = some did → did ≠ 0 →
      migrateArticlesStep idx h true se ms =
        Ev.deleteCall "article" did :: Ev.createCall "article" ::
          ms.map (fun _ => Ev.createCall "metafield") ∧
      countDeletes "article" (migrateArticlesStep idx h true se ms) = 1 ∧
      countCreates "article" (migrateArticlesStep idx h true se ms) = 1) ∧
    (∀ (destMfs : List ShopMf) (ns key : String) (dm : ShopMf) (se : Bool),
      destMfs.find? (fun f => f.key == key && f.ns == ns) = some dm →
      migrateMetafieldsStep destMfs ns key true se =
        [Ev.deleteCall "metafield" dm.mid, Ev.createCall "metafield"] ∧
      countDeletes "metafield" (migrateMetafieldsStep destMfs ns key true se) = 1 ∧
      countCreates "metafield" (migrateMetafieldsStep destMfs ns key true se) = 1) ∧
    (∀ (idx : List (String × Nat)) (h : String) (mId : Nat) (se : Bool),
      jsObjGet idx h = some mId →
      migrateMenusStep idx h true se =
        [Ev.deleteCall "menu" mId, Ev.createCall "menu"] ∧
      countDeletes "menu" (migrateMenusStep idx h true se) = 1 ∧
      countCreates "menu" (migrateMenusStep idx h true se) = 1) ∧
    (∀ (idx : List (String × Nat)) (url : String) (fId : Nat) (se : Bool),
      jsObjGet idx url = some fId →
      migrateFilesStep idx (some url) true se =
        [Ev.deleteCall "file" fId, Ev.createCall "file"] ∧
      countDeletes "file" (migrateFilesStep idx (some url) true se) = 1 ∧
      countCreates "file" (migrateFilesStep idx (some url) true se) = 1) := by
  refine ⟨?_, ?_, ?_, ?_, ?_, ?_, ?_, ?_, ?_⟩
  · intro idx h ms did se hf hd
    have hstep : migratePagesStep idx h true se ms =
        Ev.deleteCall "page" did :: pageMigrateEvents ms := by
      unfold migratePagesStep
      rw [hf]
      exact conflictStep_replace _ _ did se _ (truthyId_some did hd)
    refine ⟨hstep, ?_, ?_⟩ <;>
      simp [hstep, pageMigrateEvents, countDeletes, countCreates, List.countP_cons,
        countP_map_const, isDeleteOf, isCreateOf]
  · intro idx h ms did se hf hd
    have hstep : migrateBlogsStep idx h true se ms =
        Ev.deleteCall "blog" did :: Ev.createCall "blog" ::
          ms.map (fun _ => Ev.createCall "metafield") := by
      unfold migrateBlogsStep
      rw [hf]
      exact conflictStep_replace _ _ did se _ (truthyId_some did hd)
    refine ⟨hstep, ?_, ?_⟩ <;>
      simp [hstep, countDeletes, countCreates, List.countP_cons,
        countP_map_const, isDeleteOf, isCreateOf]
  · intro idx h imgs did se hf hd
    have hstep : migrateProductsStep idx h true se imgs =
        Ev.deleteCall "product" did :: productMigrateEvents imgs := by
      unfold migrateProductsStep
      rw [hf]
      exact conflictStep_replace _ _ did se _ (truthyId_some did hd)
    refine ⟨hstep, ?_, ?_⟩ <;>
      simp [hstep, productMigrateEvents, countDeletes, countCreates, List.countP_cons,
        countP_map_const, isDeleteOf, isCreateOf]
  · intro idx h ms did se hf hd
    have hstep : migrateSmartCollectionsStep idx h true se ms =
        Ev.deleteCall "smart_collection" did :: Ev.createCall "smart_collection" ::
          ms.map (fun _ => Ev.createCall "metafield") := by
      unfold migrateSmartCollectionsStep
      rw [hf]
      exact conflictStep_replace _ _ did se _ (truthyId_some did hd)
    refine ⟨hstep, ?_, ?_⟩ <;>
      simp [hstep, countDeletes, countCreates, List.countP_cons,
        countP_map_const, isDeleteOf, isCreateOf]
  · intro idx h ms did se hf hd
    have hstep : migrateCustomCollectionsStep idx h true se ms =
        Ev.deleteCall "custom_collection" did :: Ev.createCall "custom_collection" ::
          ms.map (fun _ => Ev.createCall "metafield") := by
      unfold migrateCustomCollectionsStep
      rw [hf]
      exact conflictStep_replace _ _ did se _ (truthyId_some did hd)
    refine ⟨hstep, ?_, ?_⟩ <;>
      simp [hstep, countDeletes, countCreates, List.countP_cons,
        countP_map_const, isDeleteOf, isCreateOf]
  · intro idx h ms did se hf hd
    have hstep : migrateArticlesStep idx h true se ms =
        Ev.deleteCall "article" did :: Ev.createCall "article" ::
          ms.map (fun _ => Ev.createCall "metafield") := by
      unfold migrateArticlesStep
      rw [hf]
      exact conflictStep_replace _ _ did se _ (truthyId_some did hd)
    refine ⟨hstep, ?_, ?_⟩ <;>
      simp [hstep, countDeletes, countCreates, List.countP_cons,
        countP_map_const, isDeleteOf, isCreateOf]
  · intro destMfs ns key dm se hf
    have hstep : migrateMetafieldsStep destMfs ns key true se =
        [Ev.deleteCall "metafield" dm.mid, Ev.createCall "metafield"] := by
      unfold migrateMetafieldsStep
      rw [hf]
      exact conflictStep_replace _ _ dm.mid se _ rfl
    refine ⟨hstep, ?_, ?_⟩ <;>
      simp [hstep, countDeletes, countCreates, List.countP_cons, isDeleteOf, isCreateOf]
  · intro idx h mId se hf
    have hstep : migrateMenusStep idx h true se =
        [Ev.deleteCall "menu" mId, Ev.createCall "menu"] := by
      unfold migrateMenusStep
      rw [hf]
      exact conflictStep_replace _ _ mId se _ rfl
    refine ⟨hstep, ?_, ?_⟩ <;>
      simp [hstep, countDeletes, countCreates, List.countP_cons, isDeleteOf, isCreateOf]
  · intro idx url fId se hf
    have hstep : migrateFilesStep idx (some url) true se =
        [Ev.deleteCall "file" fId, Ev.createCall "file"] := by
      show conflictStep "file" (jsObjGet idx url) true se [Ev.createCall "file"] = _
      rw [hf]
      exact conflictStep_replace _ _ fId se _ rfl
    refine ⟨hstep, ?_, ?_⟩ <;>
      simp [hstep, countDeletes, countCreates, List.countP_cons, isDeleteOf, isCreateOf]

/-- Witness for the C3 theorem: each driver's step, at a concrete
matching destination index entry and with `deleteFirst = true`, issues
the delete of the matched id first and the create right after. -/
theorem delete_first_deletes_then_creates_witness :
    migratePagesStep [("p", 5)] "p" true true [appMf] =
      [Ev.deleteCall "page" 5, Ev.createCall "page", Ev.createCall "metafield"] ∧
    migrateBlogsStep [("b", 5)] "b" true true [] =
      [Ev.deleteCall "blog" 5, Ev.createCall "blog"] ∧
    migrateProductsStep [("pr", 5)] "pr" true true [44] =
      [Ev.deleteCall "product" 5, Ev.createCall "product", Ev.createCall "product_image"] ∧
    migrateSmartCollectionsStep [("sc", 5)] "sc" true true [] =
      [Ev.deleteCall "smart_collection" 5, Ev.createCall "smart_collection"] ∧
    migrateCustomCollectionsStep [("cc", 5)] "cc" true true [] =
      [Ev.deleteCall "custom_collection" 5, Ev.createCall "custom_collection"] ∧
    migrateArticlesStep [("a", 5)] "a" true true [] =
      [Ev.deleteCall "article" 5, Ev.createCall "article"] ∧
    migrateMetafieldsStep [ShopMf.mk 7 "global" "k"] "global" "k" true true =
      [Ev.deleteCall "metafield" 7, Ev.createCall "metafield"] ∧
    migrateMenusStep [("m", 7)] "m" true true =
      [Ev.deleteCall "menu" 7, Ev.createCall "menu"] ∧
    migrateFilesStep [("u", 7)] (some "u") true true =
      [Ev.deleteCall "file" 7, Ev.createCall "file"] :=
  ⟨(delete_first_deletes_then_creates.1 [("p", 5)] "p" [appMf] 5 true
      (by decide) (by decide)).1,
   (delete_first_deletes_then_creates.2.1 [("b", 5)] "b" [] 5 true
      (by decide) (by decide)).1,
   (delete_first_deletes_then_creates.2.2.1 [("pr", 5)] "pr" [44] 5 true
      (by decide) (by decide)).1,
   (delete_first_deletes_then_creates.2.2.2.1 [("sc", 5)] "sc" [] 5 true
      (by decide) (by decide)).1,
   (delete_first_deletes_then_creates.2.2.2.2.1 [("cc", 5)] "cc" [] 5 true
      (by decide) (by decide)).1,
   (delete_first_deletes_then_creates.2.2.2.2.2.1 [("a", 5)] "a" [] 5 true
      (by decide) (by decide)).1,
   (delete_first_deletes_then_creates.2.2.2.2.2.2.1 [ShopMf.mk 7 "global" "k"] "global" "k"
      (ShopMf.mk 7 "global" "k") true (by decide)).1,
   (delete_first_deletes_then_creates.2.2.2.2.2.2.2.1 [("m", 7)] "m" 7 true (by decide)).1,
   (delete_first_deletes_then_creates.2.2.2.2.2.2.2.2 [("u", 7)] "u" 7 true (by decide)).1⟩

/-- C6 counterexample: the claim says every paged listing used by a
driver is walked to exhaustion before dependent computation, and in
particular every destination index is built from the complete
destination collection.  Two drivers violate it.  `migrateArticles`
issues a single `blog.list` call per side (migrator.js:734-735): with a
two-page destination blog listing its blog matching is empty while the
same matching over the exhausted walks finds the blog.  `migrateMenus`
issues a single `menus(first: 250)` query per side with no cursor loop
(migrator.js:777-801, 804-825): with a two-page destination menu
listing its handle index misses the second page's menu, which the
exhaustive index build would bind. -/
theorem article_and_menu_drivers_first_page_missed :
    (migrateArticlesMatching [[Blog.mk 1 "news"]]
      [[Blog.mk 7 "other"], [Blog.mk 8 "news"]] = [] ∧
     (listWalk [[Blog.mk 1 "news"]]).filter
       (fun sb => (listWalk [[Blog.mk 7 "other"], [Blog.mk 8 "news"]]).any
         (fun db => db.handle == sb.handle)) = [Blog.mk 1 "news"]) ∧
    (jsObjGet (migrateMenusDestIndex [[("main", 1)], [("footer", 2)]]) "footer" = none ∧
     jsObjGet (nestedObjIndex [[("main", 1)], [("footer", 2)]] []) "footer" = some 2) := by
  refine ⟨⟨?_, ?_⟩, ?_, ?_⟩ <;> decide

/-- C6 (amended): every paged listing a driver walks with a loop is
consumed to exhaustion before dependent computation — the REST
`do/while` nested index builds and record collectors, and the file
driver's cursor-style `while (hasNextPage)` index build, all produce
exactly the result over the complete flattened listing — except that
`migrateArticles` reads only the first page of the blog listings on
each side and `migrateMenus` reads only the first page (up to 250) of
the menu listings on each side, shown here on concrete two-page
listings. -/
theorem paged_walks_exhaustive_except_article_blogs_and_menus :
    (∀ pages : List (List (String × Nat)), nestedObjIndex pages [] = listWalk pages) ∧
    (∀ pages : List (List ShopMf), collectWalk pages = listWalk pages) ∧
    (∀ pages : List (List (Option String × Nat)),
      migrateFilesDestIndex pages =
        (listWalk pages).foldl (fun m r =>
          match r.1 with
          | some url => jsObjSet m url r.2
          | none => m) []) ∧
    migrateArticlesSourceBlogs [[Blog.mk 1 "news"], [Blog.mk 2 "press"]] =
      [Blog.mk 1 "news"] ∧
    migrateArticlesDestBlogs [[Blog.mk 3 "news"], [Blog.mk 4 "press"]] =
      [Blog.mk 3 "news"] ∧
    migrateMenusSourceMenus [[("main", 1)], [("footer", 2)]] = [("main", 1)] ∧
    migrateMenusDestIndex [[("main", 1)], [("footer", 2)]] = [("main", 1)] := by
  refine ⟨?_, ?_, ?_, rfl, rfl, rfl, by decide⟩
  · intro pages
    rw [nestedObjIndex_eq_walk]
    rfl
  · intro pages
    exact collectWalk_eq_listWalk pages
  · intro pages
    exact foldl_listWalk _ pages []

/-- C10: the destination index of the custom-collection driver is
built over destination smart collections first and destination custom
collections second; a source custom collection whose handle matches
only a smart collection resolves to that smart collection's id, so
under skip-existing it is skipped, and under delete-first the delete
call — issued through the custom-collection delete operation — targets
the smart collection's id. -/
theorem custom_collection_index_includes_smart :
    ∀ (sp cp : List (List (String × Nat))) (h : String) (sid : Nat) (ms : List Metafield),
      jsObjGet (listWalk cp) h = none →
      jsObjGet (listWalk sp) h = some sid →
      sid ≠ 0 →
      jsObjGet (migrateCustomCollectionsIndex sp cp) h = some sid ∧
      migrateCustomCollectionsStep (migrateCustomCollectionsIndex sp cp) h false true ms
        = [] ∧
      (∀ se : Bool,
        (migrateCustomCollectionsStep (migrateCustomCollectionsIndex sp cp) h true se
          ms).head? = some (Ev.deleteCall "custom_collection" sid)) := by
  intro sp cp h sid ms hcp hsp hne
  have hidx : migrateCustomCollectionsIndex sp cp = listWalk sp ++ listWalk cp := by
    unfold migrateCustomCollectionsIndex
    rw [nestedObjIndex_eq_walk, nestedObjIndex_eq_walk]
    simp
  have hget : jsObjGet (migrateCustomCollectionsIndex sp cp) h = some sid := by
    rw [hidx, jsObjGet_append_of_right_none _ _ _ hcp, hsp]
  refine ⟨hget, ?_, ?_⟩
  · unfold migrateCustomCollectionsStep
    rw [hget]
    exact conflictStep_skip _ _ sid _ (truthyId_some sid hne)
  · intro se
    have hstep : migrateCustomCollectionsStep (migrateCustomCollectionsIndex sp cp) h
        true se ms =
        Ev.deleteCall "custom_collection" sid :: Ev.createCall "custom_collection" ::
          ms.map (fun _ => Ev.createCall "metafield") := by
      unfold migrateCustomCollectionsStep
      rw [hget]
      exact conflictStep_replace _ _ sid se _ (truthyId_some sid hne)
    rw [hstep]
    rfl

/-- Witness for the C10 theorem: a concrete destination store with a
smart collection `c` (id 3) and a custom collection `o` (id 4); the
source custom collection with handle `c` is skipped under
skip-existing, and under delete-first the first call deletes id 3 via
the custom-collection delete operation. -/
theorem custom_collection_index_includes_smart_witness :
    jsObjGet (migrateCustomCollectionsIndex [[("c", 3)]] [[("o", 4)]]) "c" = some 3 ∧
    migrateCustomCollectionsStep (migrateCustomCollectionsIndex [[("c", 3)]] [[("o", 4)]])
      "c" false true [] = [] ∧
    (migrateCustomCollectionsStep (migrateCustomCollectionsIndex [[("c", 3)]] [[("o", 4)]])
      "c" true true []).head? = some (Ev.deleteCall "custom_collection" 3) := by
  have h := custom_collection_index_includes_smart [[("c", 3)]] [[("o", 4)]] "c" 3 []
    (by decide) (by decide) (by decide)
  exact ⟨h.1, h.2.1, h.2.2 true⟩

end StoreDuplicator
